import Mathlib

/-!
Verification of the LangServe text-summarization service (src/app.py and
src/client.py) against its natural-language specification.

The application wires a fixed prompt template, a remote chat model and a
string output extractor into a linear pipeline, and exposes it over HTTP.
The wiring and the template literal, the environment-variable access and
the server entry point are taken from src/app.py; the behaviour of the
external library components (template formatting, output extraction,
route validation) is modelled from the specification, as noted on each
definition.
-/

namespace Summarizer

/-- Pieces of a parsed prompt template: literal text or a named
substitution slot. -/
inductive Segment where
  | lit (s : String) : Segment
  | slot (name : String) : Segment
deriving DecidableEq

/-- Modelled from the spec: the template parsing performed by
`ChatPromptTemplate.from_template` (external library, not under src/).
A template string is split into literal runs and `{name}` substitution
slots; the single template in src/app.py uses no escaped braces, so only
plain slots are handled. The Bool argument records whether the scanner
is currently inside a slot. -/
def parseSegsGo : List Char → Bool → List Char → List Segment
  | [], inSlot, acc =>
      if acc.isEmpty then []
      else if inSlot then [Segment.slot (String.mk acc.reverse)]
      else [Segment.lit (String.mk acc.reverse)]
  | c :: rest, false, acc =>
      if c = '{' then
        (if acc.isEmpty then [] else [Segment.lit (String.mk acc.reverse)]) ++
          parseSegsGo rest true []
      else parseSegsGo rest false (c :: acc)
  | c :: rest, true, acc =>
      if c = '}' then Segment.slot (String.mk acc.reverse) :: parseSegsGo rest false []
      else parseSegsGo rest true (c :: acc)

/-- Modelled from the spec: `ChatPromptTemplate.from_template` applied to a
template string yields its parsed segments. -/
def parseSegs (tmpl : String) : List Segment :=
  parseSegsGo tmpl.data false []

/-- The template string literal passed to `ChatPromptTemplate.from_template`
in src/app.py. -/
def summarizeTemplateStr : String :=
  "Summarize the following text clearly and concisely:\n\n{text}"

/-- The parsed summarization prompt template (src/app.py, `prompt`). -/
def summarizeTemplate : List Segment :=
  parseSegs summarizeTemplateStr

/-- The literal part of the summarization template, before the `text`
substitution slot. -/
def promptHead : String :=
  "Summarize the following text clearly and concisely:\n\n"

/-- A JSON request body restricted to the shape the service uses: a mapping
from string keys to string values. -/
abbrev Body := List (String × String)

/-- Key lookup in a request body, first match wins. -/
def lookupKey (m : Body) (k : String) : Option String :=
  match m with
  | [] => none
  | (k₂, v) :: rest => if k₂ = k then some v else lookupKey rest k

/-- Modelled from the spec: rendering a parsed template against a mapping of
variable values (the invocation of `ChatPromptTemplate`, external library).
Rendering fails when a required slot has no value, matching the contract
that the Prompt Builder fails if the required key is absent. -/
def renderSegs (vals : String → Option String) : List Segment → Option String
  | [] => some ""
  | Segment.lit s :: rest => (renderSegs vals rest).map (fun t => s ++ t)
  | Segment.slot n :: rest =>
      (vals n).bind (fun v => (renderSegs vals rest).map (fun t => v ++ t))

/-- The Prompt Builder of src/app.py: render the summarization template
against a request body. -/
def renderTemplate (body : Body) : Option String :=
  renderSegs (fun k => lookupKey body k) summarizeTemplate

/-- Modelled from the spec: the raw model response returned by the remote
provider — generated text content plus metadata (token counts, finish
reason), which the extractor must discard. The content field is absent when
the response lacks the expected text field. -/
structure ModelResponse where
  content : Option String
  tokenCount : Nat
  finishReason : String
deriving DecidableEq

/-- A provider (or provider stub) maps a rendered prompt to a raw model
response. The real provider is the remote Groq chat-completion endpoint. -/
abbrev Provider := String → ModelResponse

/-- Modelled from the spec: `StrOutputParser` (external library) extracts
only the generated text content from the raw model response, discarding
metadata, and fails when the response lacks the expected text field. -/
def strOutputParser (r : ModelResponse) : Option String :=
  match r.content with
  | some c => some c
  | none => none

/-- The composed chain of src/app.py line 56 (`prompt | llm | StrOutputParser`):
prompt rendering, then the model call, then output extraction, each stage
consuming the previous stage's output. -/
def chainInvoke (provider : Provider) (body : Body) : Option String :=
  (renderTemplate body).bind (fun p => strOutputParser (provider p))

/-- HTTP status codes the summarization route can answer with. -/
inductive HttpStatus where
  | ok200 : HttpStatus
  | unprocessable422 : HttpStatus
  | serverError500 : HttpStatus
deriving DecidableEq

/-- Result of one request to the summarization route: the status, the
`output` field of the JSON response when present, and the list of prompts
sent to the remote provider while handling the request. -/
structure EndpointResult where
  status : HttpStatus
  output : Option String
  providerCalls : List String
deriving DecidableEq

/-- Modelled from the spec: the `/summarize` invoke route installed by
`add_routes` (external library, not under src/). The request body is
validated against the chain's input schema — the required `text` key —
answering 422 without calling the provider when validation fails; otherwise
the chain runs and a successful extraction is answered as 200 with the
result in `output`, a failed one as 500. -/
def handleInvoke (provider : Provider) (body : Body) : EndpointResult :=
  match lookupKey body "text" with
  | none => ⟨HttpStatus.unprocessable422, none, []⟩
  | some _ =>
      match renderTemplate body with
      | none => ⟨HttpStatus.serverError500, none, []⟩
      | some p =>
          match strOutputParser (provider p) with
          | some out => ⟨HttpStatus.ok200, some out, [p]⟩
          | none => ⟨HttpStatus.serverError500, none, [p]⟩

/-- The application state built by module load of src/app.py when it
succeeds: the configuration the chain is built from. -/
structure AppState where
  apiKey : String
  modelName : String
deriving DecidableEq

/-- Failures of module load of src/app.py. -/
inductive StartupError where
  | missingApiKey : StartupError
deriving DecidableEq

/-- Module load of src/app.py lines 15-16: after `load_dotenv()`, the
expression `os.environ["GROQ_API_KEY"]` is evaluated at the top level of the
module, raising KeyError when the variable is absent — before the app, the
chain or the server are constructed. The environment (as visible after
`load_dotenv`) is a mapping from variable names to values. -/
def loadApp (env : String → Option String) : Except StartupError AppState :=
  match env "GROQ_API_KEY" with
  | none => Except.error StartupError.missingApiKey
  | some k => Except.ok ⟨k, "llama-3.1-8b-instant"⟩

/-- Host and port an HTTP listener is started on. -/
structure ServerConfig where
  host : String
  port : Nat
deriving DecidableEq

/-- The process entry point of src/app.py lines 70-72:
`uvicorn.run(app, host="localhost", port=8000)`. The process environment and
command-line arguments are in scope but the code consults neither; the host
and port are written literally at the call site. -/
def mainServerConfig (env : String → Option String) (args : List String) : ServerConfig :=
  ⟨"localhost", 8000⟩

/-- Specification-side definition, following the spec's words for the Prompt
Builder stage: substitute the request's `text` into the fixed template
`"Summarize the following text clearly and concisely:\n\n{text}"`. -/
def buildPromptSpec (s : String) : String :=
  "Summarize the following text clearly and concisely:\n\n" ++ s

/-- Specification-side definition, following the spec's words for the whole
pipeline: the ordered composition of the three stages — Prompt Builder, then
the model call, then the Response Extractor — each applied to the previous
stage's output, starting from the request's `text` field. -/
def pipelineSpec (provider : Provider) (s : String) : Option String :=
  strOutputParser (provider (buildPromptSpec s))

/-- The parsed summarization template is one literal run followed by the
single `text` slot. -/
lemma summarizeTemplate_eq :
    summarizeTemplate = [Segment.lit promptHead, Segment.slot "text"] := by
  decide

/-- Rendering the summarization template depends only on the value supplied
for `text`, and prepends the fixed literal to it. -/
lemma renderSegs_summarizeTemplate (vals : String → Option String) :
    renderSegs vals summarizeTemplate = (vals "text").map (fun v => promptHead ++ v) := by
  rw [summarizeTemplate_eq]
  cases h : vals "text" with
  | none => simp [renderSegs, h]
  | some v => simp [renderSegs, h, String.append_empty]

/-- When the body carries `text`, the Prompt Builder produces the template
with that value substituted. -/
lemma renderTemplate_of_lookup (body : Body) (s : String)
    (h : lookupKey body "text" = some s) :
    renderTemplate body = some (buildPromptSpec s) := by
  simp only [renderTemplate, renderSegs_summarizeTemplate, h, Option.map_some]
  rfl

/-- C1: the summarization pipeline is exactly the ordered composition of
the three stages — Prompt Builder, then model call, then Response
Extractor — each consuming the previous stage's output; for every request
carrying `text`, both the composed chain and the endpoint's result equal
that composition applied to the request's `text` field. -/
theorem pipeline_is_three_stage_composition (provider : Provider) (body : Body)
    (s : String) (h : lookupKey body "text" = some s) :
    chainInvoke provider body = pipelineSpec provider s ∧
    (handleInvoke provider body).output = pipelineSpec provider s := by
  have hr := renderTemplate_of_lookup body s h
  constructor
  · simp [chainInvoke, hr, pipelineSpec]
  · simp only [handleInvoke, h, hr]
    cases hp : strOutputParser (provider (buildPromptSpec s)) with
    | none => simp [pipelineSpec, hp]
    | some out => simp [pipelineSpec, hp]

/-- Witness for C1 at the concrete request body containing text "hello"
and a constant provider stub. -/
theorem pipeline_is_three_stage_composition_witness :
    lookupKey [("text", "hello")] "text" = some "hello" ∧
    (chainInvoke (fun _ => ⟨some "A short summary.", 7, "stop"⟩) [("text", "hello")] =
        pipelineSpec (fun _ => ⟨some "A short summary.", 7, "stop"⟩) "hello" ∧
      (handleInvoke (fun _ => ⟨some "A short summary.", 7, "stop"⟩) [("text", "hello")]).output =
        pipelineSpec (fun _ => ⟨some "A short summary.", 7, "stop"⟩) "hello") :=
  ⟨by decide,
   pipeline_is_three_stage_composition
     (fun _ => ⟨some "A short summary.", 7, "stop"⟩) [("text", "hello")] "hello" (by decide)⟩

/-- C2: for every string s, the Prompt Builder applied to the mapping
containing `text ↦ s` returns the fixed template with s substituted; in
particular at "hello" it returns the literal
"Summarize the following text clearly and concisely:\n\nhello". -/
theorem prompt_builder_substitutes_text :
    (∀ s : String, renderTemplate [("text", s)] = some (promptHead ++ s)) ∧
    renderTemplate [("text", "hello")] =
      some "Summarize the following text clearly and concisely:\n\nhello" := by
  constructor
  · intro s
    simp only [renderTemplate, renderSegs_summarizeTemplate, lookupKey]
    simp
  · decide

/-- C3: the Response Extractor returns only the generated text content and
discards all metadata — responses agreeing on content extract equally, a
present content field is returned verbatim (in particular
"A short summary." under any metadata), and extraction fails when the
text field is absent. -/
theorem extractor_returns_content_only :
    (∀ r₁ r₂ : ModelResponse, r₁.content = r₂.content →
      strOutputParser r₁ = strOutputParser r₂) ∧
    (∀ (r : ModelResponse) (c : String), r.content = some c →
      strOutputParser r = some c) ∧
    (∀ (t : Nat) (f : String),
      strOutputParser ⟨some "A short summary.", t, f⟩ = some "A short summary.") ∧
    (∀ r : ModelResponse, r.content = none → strOutputParser r = none) := by
  refine ⟨?_, ?_, ?_, ?_⟩
  · intro r₁ r₂ h
    simp [strOutputParser, h]
  · intro r c h
    simp [strOutputParser, h]
  · intro t f
    rfl
  · intro r h
    simp [strOutputParser, h]

/-- Witness for C3: concrete instances of each hypothesis-bearing
conjunct. -/
theorem extractor_returns_content_only_witness :
    strOutputParser ⟨some "A short summary.", 3, "stop"⟩ =
      strOutputParser ⟨some "A short summary.", 99, "length"⟩ ∧
    strOutputParser ⟨some "ok", 0, "stop"⟩ = some "ok" ∧
    strOutputParser ⟨none, 0, "stop"⟩ = none :=
  ⟨extractor_returns_content_only.1 ⟨some "A short summary.", 3, "stop"⟩
      ⟨some "A short summary.", 99, "length"⟩ rfl,
   extractor_returns_content_only.2.1 ⟨some "ok", 0, "stop"⟩ "ok" rfl,
   extractor_returns_content_only.2.2.2 ⟨none, 0, "stop"⟩ rfl⟩

/-- C4: every request body lacking the `text` key is answered with HTTP 422
and the remote provider is never called. -/
theorem missing_text_gives_422_without_provider_call (provider : Provider)
    (body : Body) (h : lookupKey body "text" = none) :
    (handleInvoke provider body).status = HttpStatus.unprocessable422 ∧
    (handleInvoke provider body).providerCalls = [] := by
  simp [handleInvoke, h]

/-- Witness for C4 at the empty request body. -/
theorem missing_text_gives_422_without_provider_call_witness :
    lookupKey ([] : Body) "text" = none ∧
    (handleInvoke (fun _ => ⟨some "A short summary.", 7, "stop"⟩) []).status =
      HttpStatus.unprocessable422 ∧
    (handleInvoke (fun _ => ⟨some "A short summary.", 7, "stop"⟩) []).providerCalls = [] :=
  ⟨rfl,
   (missing_text_gives_422_without_provider_call
      (fun _ => ⟨some "A short summary.", 7, "stop"⟩) [] rfl).1,
   (missing_text_gives_422_without_provider_call
      (fun _ => ⟨some "A short summary.", 7, "stop"⟩) [] rfl).2⟩

/-- C5: when GROQ_API_KEY is absent from the environment, module load fails
with the missing-key error and no application state is ever produced, so
the process never reaches serving — it does not fail lazily on a first
request. -/
theorem missing_api_key_fails_at_startup (env : String → Option String)
    (h : env "GROQ_API_KEY" = none) :
    loadApp env = Except.error StartupError.missingApiKey ∧
    ∀ st : AppState, loadApp env ≠ Except.ok st := by
  constructor
  · simp [loadApp, h]
  · intro st
    simp [loadApp, h]

/-- Witness for C5 at the empty environment. -/
theorem missing_api_key_fails_at_startup_witness :
    ((fun _ => none) : String → Option String) "GROQ_API_KEY" = none ∧
    loadApp (fun _ => none) = Except.error StartupError.missingApiKey :=
  ⟨rfl, (missing_api_key_fails_at_startup (fun _ => none) rfl).1⟩

/-- C6: for every non-empty `text` and every functioning provider stub
(one whose responses always carry non-empty content), the summarization
route answers HTTP 200 with a non-empty `output` string. -/
theorem nonempty_text_gives_200_nonempty_output (provider : Provider) (s : String)
    (hs : s ≠ "")
    (hp : ∀ p : String, ∃ c : String, (provider p).content = some c ∧ c ≠ "") :
    (handleInvoke provider [("text", s)]).status = HttpStatus.ok200 ∧
    ∃ out : String, (handleInvoke provider [("text", s)]).output = some out ∧ out ≠ "" := by
  have hl : lookupKey [("text", s)] "text" = some s := by simp [lookupKey]
  have hr := renderTemplate_of_lookup [("text", s)] s hl
  obtain ⟨c, hc, hcne⟩ := hp (buildPromptSpec s)
  have hp2 : strOutputParser (provider (buildPromptSpec s)) = some c := by
    simp [strOutputParser, hc]
  have hh : handleInvoke provider [("text", s)] =
      ⟨HttpStatus.ok200, some c, [buildPromptSpec s]⟩ := by
    simp [handleInvoke, hl, hr, hp2]
  rw [hh]
  exact ⟨rfl, c, rfl, hcne⟩

/-- Witness for C6 at text "hello" and a constant provider stub. -/
theorem nonempty_text_gives_200_nonempty_output_witness :
    ("hello" : String) ≠ "" ∧
    (handleInvoke (fun _ => ⟨some "A short summary.", 7, "stop"⟩)
        [("text", "hello")]).status = HttpStatus.ok200 ∧
    ∃ out : String,
      (handleInvoke (fun _ => ⟨some "A short summary.", 7, "stop"⟩)
          [("text", "hello")]).output = some out ∧ out ≠ "" :=
  ⟨by decide,
   (nonempty_text_gives_200_nonempty_output (fun _ => ⟨some "A short summary.", 7, "stop"⟩)
      "hello" (by decide) (fun _ => ⟨"A short summary.", rfl, by decide⟩)).1,
   (nonempty_text_gives_200_nonempty_output (fun _ => ⟨some "A short summary.", 7, "stop"⟩)
      "hello" (by decide) (fun _ => ⟨"A short summary.", rfl, by decide⟩)).2⟩

/-- C7: the endpoint is deterministic relative to the provider — two
invocations with identical input against a provider stubbed to return a
constant response yield identical results. -/
theorem endpoint_deterministic_for_constant_stub (c : ModelResponse)
    (b₁ b₂ : Body) (h : b₁ = b₂) :
    handleInvoke (fun _ => c) b₁ = handleInvoke (fun _ => c) b₂ := by
  rw [h]

/-- Witness for C7 at a concrete body and constant stub. -/
theorem endpoint_deterministic_for_constant_stub_witness :
    ([("text", "hello")] : Body) = [("text", "hello")] ∧
    handleInvoke (fun _ => (⟨some "A short summary.", 7, "stop"⟩ : ModelResponse))
        [("text", "hello")] =
      handleInvoke (fun _ => (⟨some "A short summary.", 7, "stop"⟩ : ModelResponse))
        [("text", "hello")] :=
  ⟨rfl,
   endpoint_deterministic_for_constant_stub ⟨some "A short summary.", 7, "stop"⟩
     [("text", "hello")] [("text", "hello")] rfl⟩

/-- C8 counterexample: the claim that the entry point's host and port are
configurable is false — no environment and no command-line arguments make
the started listener differ from localhost:8000; the values are written
literally at the `uvicorn.run` call site. -/
theorem entry_point_not_configurable :
    ¬ ∃ (env : String → Option String) (args : List String),
        mainServerConfig env args ≠ ⟨"localhost", 8000⟩ := by
  rintro ⟨env, args, h⟩
  exact h rfl

/-- C8 amended: the process entry point starts an HTTP listener on the
fixed host localhost and port 8000, regardless of environment or
command-line arguments. -/
theorem entry_point_fixed_localhost_8000 (env : String → Option String)
    (args : List String) :
    mainServerConfig env args = ⟨"localhost", 8000⟩ :=
  rfl

/-- C9: the empty `text` is not rejected — the Prompt Builder succeeds and
produces the fixed template with an empty substitution, the endpoint does
not answer 422, and the request proceeds to the provider with exactly that
prompt. -/
theorem empty_text_not_rejected (provider : Provider) :
    renderTemplate [("text", "")] =
      some "Summarize the following text clearly and concisely:\n\n" ∧
    (handleInvoke provider [("text", "")]).status ≠ HttpStatus.unprocessable422 ∧
    (handleInvoke provider [("text", "")]).providerCalls =
      ["Summarize the following text clearly and concisely:\n\n"] := by
  have hl : lookupKey [("text", "")] "text" = some "" := by simp [lookupKey]
  have hr := renderTemplate_of_lookup [("text", "")] "" hl
  have hb : buildPromptSpec "" = "Summarize the following text clearly and concisely:\n\n" := by
    decide
  refine ⟨by rw [hr, hb], ?_, ?_⟩ <;>
    · simp only [handleInvoke, hl, hr, hb]
      cases hp : strOutputParser
          (provider "Summarize the following text clearly and concisely:\n\n") with
      | none => simp
      | some out => simp

/-- C10: the Prompt Builder's output depends only on the value of the
`text` key — two bodies carrying the same `text` value render identically,
whatever other keys they hold. -/
theorem prompt_depends_only_on_text (m₁ m₂ : Body) (v : String)
    (h₁ : lookupKey m₁ "text" = some v) (h₂ : lookupKey m₂ "text" = some v) :
    renderTemplate m₁ = renderTemplate m₂ := by
  simp only [renderTemplate, renderSegs_summarizeTemplate, h₁, h₂]

/-- Witness for C10: two bodies with different extra keys but the same
`text` value render to the same prompt. -/
theorem prompt_depends_only_on_text_witness :
    lookupKey [("text", "hi"), ("extra", "1")] "text" = some "hi" ∧
    lookupKey [("zzz", "q"), ("text", "hi")] "text" = some "hi" ∧
    renderTemplate [("text", "hi"), ("extra", "1")] =
      renderTemplate [("zzz", "q"), ("text", "hi")] :=
  ⟨by decide, by decide,
   prompt_depends_only_on_text [("text", "hi"), ("extra", "1")]
     [("zzz", "q"), ("text", "hi")] "hi" (by decide) (by decide)⟩

end Summarizer
